import Mathlib

/-!
Verification of the paired-end FASTQ stitching core of `analyze_crispresso.py`
(repository `crispresso_tool`), as a shallow embedding in Lean 4.

Strings are modelled as `List Char`; a line-oriented text stream (what the
Python code reads with `readline`) is a `List Line`, where `readline` on an
exhausted stream returns the empty string, exactly as Python file objects do.
-/

namespace Crispresso

abbrev Line := List Char

/-- ASCII whitespace stripped by Python's `str.strip()` (we model the ASCII
fragment; the source only ever meets `' '`, `'\t'`, `'\r'`, `'\n'` on FASTQ
lines). -/
def isPySpace (c : Char) : Bool :=
  c = ' ' || c = '\t' || c = '\n' || c = '\r' || c = '\x0b' || c = '\x0c'

/-- Embedding of Python `str.strip()`: remove leading and trailing whitespace. -/
def pyStrip (l : List Char) : List Char :=
  ((l.dropWhile isPySpace).reverse.dropWhile isPySpace).reverse

/-- Embedding of `TRANS_TABLE = str.maketrans("ATCGNabcde", "TAGCNtagcn")`
(line 33 of `analyze_crispresso.py`): the character-to-character mapping is
given by pairing the two strings positionally, exactly as `str.maketrans`
does.  Note the lowercase keys in the source really are `a b c d e`. -/
def TRANS_TABLE : List (Char × Char) :=
  List.zip "ATCGNabcde".data "TAGCNtagcn".data

/-- Embedding of Python `str.translate(table)`: each character that is a key
of the table is replaced by its image, every other character passes through
unchanged. -/
def pyTranslate (table : List (Char × Char)) (s : List Char) : List Char :=
  s.map (fun c => (table.lookup c).getD c)

/-- Embedding of `get_reverse_complement` (lines 35-39):
`seq.translate(TRANS_TABLE)[::-1]`. -/
def get_reverse_complement (seq : List Char) : List Char :=
  (pyTranslate TRANS_TABLE seq).reverse

/-- A 4-line FASTQ record: identifier, sequence, separator, quality
(line contents, without the terminating newline). -/
structure FastqRecord where
  ident : List Char
  seq : List Char
  sep : List Char
  qual : List Char
deriving Repr, DecidableEq

/-- Embedding of one `readline()` call on a line stream: the next line, and
the rest of the stream; on an exhausted stream it returns the empty string,
as Python file objects do. -/
def readline : List Line → Line × List Line
  | [] => ([], [])
  | l :: ls => (l, ls)

/-- The four lines a well-formed record occupies in the decompressed text
stream, each terminated by a newline (as `readline` delivers them). -/
def toLines (r : FastqRecord) : List Line :=
  [r.ident ++ ['\n'], r.seq ++ ['\n'], r.sep ++ ['\n'], r.qual ++ ['\n']]

/-- A whole FASTQ file, as the line stream of its records. -/
def encodeRecords (rs : List FastqRecord) : List Line :=
  (rs.map toLines).flatten

/-- Embedding of the record-pairing loop of `stitch_paired_end_reads_stream`
(lines 80-111), as the list of merged records it writes.

Per iteration the code reads four lines from each stream.  From stream 1:
the identifier (`r1_id`, matched off the head here), the sequence, a
discarded plus line, and the quality; from stream 2: a discarded identifier,
the sequence, a discarded plus line, and the quality.  After the head of
stream 1 is removed, the i-th subsequent `readline` sees the stream after
`i-1` lines have been consumed, i.e. `rest.drop (i-1)`; the next iteration
continues on `rest1.drop 3` and `f2.drop 4`.  The loop breaks when `r1_id`
is the empty string (`if not r1_id: break`, line 85) — stream 2 is never
checked.  Sequence and quality lines are `.strip()`-ped on reading (lines
88-89, 96-97); the identifier is `.strip()`-ped when written and the
separator written is the literal `"+"` (line 107). -/
def stitchLoop (pad : Nat) : List Line → List Line → List FastqRecord
  | [], _ => []
  | r1_id :: rest1, f2 =>
    if r1_id = [] then []
    else
      { ident := pyStrip r1_id
        seq := pyStrip (readline rest1).1 ++ List.replicate pad 'N' ++
          get_reverse_complement (pyStrip (readline (f2.drop 1)).1)
        sep := ['+']
        qual := pyStrip (readline (rest1.drop 2)).1 ++ List.replicate pad '!' ++
          (pyStrip (readline (f2.drop 3)).1).reverse }
      :: match rest1 with
         | _ :: _ :: _ :: rest1' => stitchLoop pad rest1' (f2.drop 4)
         | _ => []
      -- The next iteration continues on `rest1.drop 3` and `f2.drop 4`.  The
      -- recursion is written structurally: when fewer than three lines follow
      -- the identifier, `rest1.drop 3 = []`, the next `readline` returns the
      -- empty string and the loop breaks at once, emitting nothing — which is
      -- the literal `[]` of the fallback branch (the lines the broken-off
      -- iteration would still consume from stream 2 affect no output).

/-- The merged record the loop builds from one consumed pair (lines 99-107);
line 100 repeats the body of `get_reverse_complement` verbatim, so it is
used here directly.  `record2`'s identifier and both separator lines do not
occur. -/
def mergedOf (pad : Nat) (r1 r2 : FastqRecord) : FastqRecord :=
  { ident := r1.ident
    seq := r1.seq ++ List.replicate pad 'N' ++ get_reverse_complement r2.seq
    sep := ['+']
    qual := r1.qual ++ List.replicate pad '!' ++ r2.qual.reverse }

/-- The destination file of a stitching run: `none` when the file does not
exist on disk, `some content` when it exists and holds `content`. -/
abbrev OutFile := Option (List FastqRecord)

/-- One decompression subprocess, observed from the stitching loop's side:
the lines its standard output delivered before it terminated, and whether it
exited with status 0.  A process that dies mid-stream (e.g. on a corrupt
gzip member) simply delivers a truncated `outLines` with `exitOk = false`;
from then on `readline` returns the empty string. -/
structure Stage where
  outLines : List Line
  exitOk : Bool

/-- The fate of the `try` body of `stitch_paired_end_reads_stream` (lines
70-113): `none` when no Python exception escapes it, `some f` when one does,
with `f` the state of the destination file at that moment (`none` when the
exception occurred before `open(output_path, "wb")` on line 73 created it,
e.g. a decompressor that failed to start). -/
abbrev ExcState := Option OutFile

/-- Embedding of `stitch_paired_end_reads_stream` (lines 41-120) at the
level of its observable effects: the final state of the destination file,
and whether an error is propagated to the caller (`raise e`, line 120).

When no Python exception escapes the `try` body, the run takes the success
path: the destination file holds exactly the records of the pairing loop
applied to whatever lines the two decompressors delivered, and no error is
raised.  The exit statuses `p1.exitOk`, `p2.exitOk` do not occur on this
path because the code never reads them: `subprocess.Popen.__exit__` (the
`with` blocks, lines 71-76) waits for each process but does not raise on a
nonzero exit status, and the loop body never touches `returncode`.

When an exception does escape the body, the `except` handler (lines
115-120) deletes the destination file if it exists
(`if output_path.exists(): output_path.unlink()`) and re-raises. -/
def stitchRun (pad : Nat) (p1 p2 : Stage) (exc : ExcState) : OutFile × Bool :=
  match exc with
  | none => (some (stitchLoop pad p1.outLines p2.outLines), false)
  | some f => (if f.isSome then none else f, true)

/-! ## Helper lemmas -/

lemma pyStrip_append_newline (l : List Char) : pyStrip (l ++ ['\n']) = pyStrip l := by
  have hnl : isPySpace '\n' = true := rfl
  unfold pyStrip
  rw [List.dropWhile_append]
  by_cases h : (l.dropWhile isPySpace).isEmpty
  · rw [if_pos h, List.isEmpty_iff.mp h]
    decide
  · rw [if_neg h]
    simp [List.reverse_append, List.dropWhile_cons, hnl]

/-- Unfolding one iteration of the pairing loop when stream A starts with a
complete 4-line record, for an arbitrary stream B. -/
lemma stitchLoop_cons_left (pad : Nat) (r1 : FastqRecord) (a f2 : List Line) :
    stitchLoop pad (toLines r1 ++ a) f2 =
      { ident := pyStrip r1.ident
        seq := pyStrip r1.seq ++ List.replicate pad 'N' ++
          get_reverse_complement (pyStrip (readline (f2.drop 1)).1)
        sep := ['+']
        qual := pyStrip r1.qual ++ List.replicate pad '!' ++
          (pyStrip (readline (f2.drop 3)).1).reverse }
      :: stitchLoop pad a (f2.drop 4) := by
  rw [toLines]
  simp only [List.cons_append, List.nil_append]
  rw [stitchLoop]
  simp [readline, pyStrip_append_newline]

/-- Unfolding one iteration of the pairing loop on streams that start with a
complete 4-line record each: the emitted record, over the stripped line
contents. -/
lemma stitchLoop_cons (pad : Nat) (r1 r2 : FastqRecord) (a b : List Line) :
    stitchLoop pad (toLines r1 ++ a) (toLines r2 ++ b) =
      { ident := pyStrip r1.ident
        seq := pyStrip r1.seq ++ List.replicate pad 'N' ++
          get_reverse_complement (pyStrip r2.seq)
        sep := ['+']
        qual := pyStrip r1.qual ++ List.replicate pad '!' ++ (pyStrip r2.qual).reverse }
      :: stitchLoop pad a b := by
  rw [stitchLoop_cons_left]
  simp [toLines, readline, pyStrip_append_newline]

/-! ## Claim theorems -/

/-- Claim C1: for every pair of well-formed 4-line FASTQ records consumed in
the same iteration of the stitching loop with padding `pad`, the emitted
merged record has sequence `r1.seq ++ 'N'*pad ++ get_reverse_complement
r2.seq`, quality `r1.qual ++ '!'*pad ++ reverse r2.qual`, and identifier
`r1.ident`; `r2`'s identifier is discarded (the right-hand side does not
depend on it).  Well-formedness is expressed as the record fields carrying
no leading or trailing whitespace (the loop strips every line it uses). -/
theorem stitched_record_formula (pad : Nat) (r1 r2 : FastqRecord) (a b : List Line)
    (h1 : pyStrip r1.ident = r1.ident) (h2 : pyStrip r1.seq = r1.seq)
    (h3 : pyStrip r1.qual = r1.qual) (h4 : pyStrip r2.seq = r2.seq)
    (h5 : pyStrip r2.qual = r2.qual) :
    stitchLoop pad (toLines r1 ++ a) (toLines r2 ++ b) =
      mergedOf pad r1 r2 :: stitchLoop pad a b := by
  rw [stitchLoop_cons, h1, h2, h3, h4, h5, mergedOf]

/-- Witness for C1, at the spec's own concrete scenario (§8.7):
`("@r1","ACGT","+","IIII")` and `("@r2","TTAA","+","JJJJ")` with padding 2
merge to `("@r1","ACGTNNTTAA","+","IIII!!JJJJ")`. -/
theorem stitched_record_formula_witness :
    pyStrip "@r1".data = "@r1".data ∧ pyStrip "ACGT".data = "ACGT".data ∧
    pyStrip "IIII".data = "IIII".data ∧ pyStrip "TTAA".data = "TTAA".data ∧
    pyStrip "JJJJ".data = "JJJJ".data ∧
    stitchLoop 2
        (toLines ⟨"@r1".data, "ACGT".data, "+".data, "IIII".data⟩ ++ [])
        (toLines ⟨"@r2".data, "TTAA".data, "+".data, "JJJJ".data⟩ ++ []) =
      mergedOf 2 ⟨"@r1".data, "ACGT".data, "+".data, "IIII".data⟩
          ⟨"@r2".data, "TTAA".data, "+".data, "JJJJ".data⟩
        :: stitchLoop 2 [] [] :=
  ⟨by decide, by decide, by decide, by decide, by decide,
    stitched_record_formula 2 _ _ [] []
      (by decide) (by decide) (by decide) (by decide) (by decide)⟩

/-- Claim C2 (code bug): the translation table of line 33 was built from the
key string `"ATCGNabcde"` — its lowercase keys are `a b c d e`, not
`a t c g n`.  Hence lowercase `'t'` and `'g'` are NOT complemented (they are
not keys and pass through), while `'b'`, `'d'`, `'e'` — outside the claimed
alphabet — do not pass through unchanged but map to `'a'`, `'c'`, `'n'`.
This theorem evaluates `get_reverse_complement` at the failing inputs;
the claim instead requires `['t'] ↦ ['a']` and `['b'] ↦ ['b']`. -/
theorem trans_table_lowercase_defect :
    get_reverse_complement ['t'] = ['t'] ∧
    get_reverse_complement ['g'] = ['g'] ∧
    get_reverse_complement ['b'] = ['a'] ∧
    get_reverse_complement ['d'] = ['c'] ∧
    get_reverse_complement ['e'] = ['n'] := by
  decide

/-- Claim C3 (code bug): applying `get_reverse_complement` twice is not the
identity on lowercase input: on `"a"` it yields `"t"` (first application
maps `'a' ↦ 't'` and reverses; the second leaves `'t'` unchanged because
`'t'` is not a key of the defective table of line 33). -/
theorem reverse_complement_not_involutive_lowercase :
    get_reverse_complement (get_reverse_complement ['a']) = ['t'] ∧
    (['t'] : List Char) ≠ ['a'] := by
  decide

/-- Claim C4 (code bug): a decompression stage that exits with an error
mid-stream is not signaled as a stitch failure.  No Python exception is
raised in that scenario (`Popen.__exit__` does not inspect `returncode`),
so the run takes the success path: here both decompressors report
`exitOk = false` — the R1 stream died right after one record, the R2 stream
after only two of four lines — yet the run propagates no error and leaves
the destination file in place, containing a malformed record (sequence of
length 10 against quality of length 6) built from the truncated stream. -/
theorem decompressor_error_not_signaled :
    stitchRun 2
        ⟨toLines ⟨"@a".data, "ACGT".data, "+".data, "IIII".data⟩, false⟩
        ⟨["@b\n".data, "GGGG\n".data], false⟩
        none =
      (some [⟨"@a".data, "ACGTNNCCCC".data, "+".data, "IIII!!".data⟩], false) := by
  decide

/-- Claim C5 counterexample: the separator line is NOT passed through
unchanged.  With `r1`'s separator line `"+x"`, the emitted record's
separator is the literal `"+"` (line 107 writes a hard-coded `"+"` after
both input separator lines were read and discarded, lines 92-93). -/
theorem separator_not_passed_through :
    stitchLoop 0 (toLines ⟨"@r1".data, "AC".data, "+x".data, "II".data⟩)
        (toLines ⟨"@r2".data, "GG".data, "+".data, "JJ".data⟩) =
      [⟨"@r1".data, "ACCC".data, "+".data, "IIJJ".data⟩] ∧
    ("+".data : List Char) ≠ "+x".data := by
  decide

/-- Claim C5 amended: for every emitted merged record, `r1`'s identifier is
passed through (stripped of surrounding whitespace) while both input
separator lines are read and discarded and the output separator is always
the literal `"+"`; only sequence and quality participate in the transform. -/
theorem ident_passed_separator_replaced (pad : Nat) (r1 r2 : FastqRecord)
    (a b : List Line) :
    ((stitchLoop pad (toLines r1 ++ a) (toLines r2 ++ b)).head?).map
        (fun m => (m.ident, m.sep)) =
      some (pyStrip r1.ident, ['+']) := by
  rw [stitchLoop_cons]
  rfl

/-- Claim C6: if a Python exception escapes the `try` body (reading,
transforming or writing), the `except` handler of lines 115-120 deletes the
destination file — whatever partially-written state `f` it is in, existing
or not — before the error is re-raised, so on failure the destination file
does not exist afterwards and an error is propagated to the caller. -/
theorem failure_cleanup (pad : Nat) (p1 p2 : Stage) (f : OutFile) :
    stitchRun pad p1 p2 (some f) = (none, true) := by
  cases f <;> rfl

/-- Claim C7: the pairing loop is driven by stream A alone — it stops
exactly when reading A's identifier line returns the empty string, never
checking stream B — so for ANY second stream `f2` the number of emitted
merged records equals the number of records encoded in stream A; in
particular two inputs of `k` well-formed records each yield exactly `k`
merged records. -/
theorem record_count_preserved (pad : Nat) (rs1 : List FastqRecord) (f2 : List Line) :
    (stitchLoop pad (encodeRecords rs1) f2).length = rs1.length := by
  induction rs1 generalizing f2 with
  | nil => rfl
  | cons r rs ih =>
    have ih2 : ∀ g, (stitchLoop pad ((rs.map toLines).flatten) g).length = rs.length := by
      intro g
      have h := ih g
      rwa [encodeRecords] at h
    rw [encodeRecords, List.map_cons, List.flatten_cons, stitchLoop_cons_left]
    simp [ih2]

/-- Claim C8: for every merged record built from well-formed equal-length
inputs, the merged sequence length is `r1`'s sequence length plus the
padding plus `r2`'s sequence length, and the merged sequence and quality
have equal length (given each input record's sequence and quality agree in
length). -/
theorem merged_record_lengths (pad : Nat) (r1 r2 : FastqRecord)
    (h1 : r1.seq.length = r1.qual.length) (h2 : r2.seq.length = r2.qual.length) :
    (mergedOf pad r1 r2).seq.length = r1.seq.length + pad + r2.seq.length ∧
    (mergedOf pad r1 r2).seq.length = (mergedOf pad r1 r2).qual.length := by
  constructor
  · simp [mergedOf, get_reverse_complement, pyTranslate]
    omega
  · simp [mergedOf, get_reverse_complement, pyTranslate, h1, h2]

/-- Witness for C8 at the spec's concrete records, padding 2. -/
theorem merged_record_lengths_witness :
    ("ACGT".data.length = "IIII".data.length) ∧
    ("TTAA".data.length = "JJJJ".data.length) ∧
    ((mergedOf 2 ⟨"@r1".data, "ACGT".data, "+".data, "IIII".data⟩
        ⟨"@r2".data, "TTAA".data, "+".data, "JJJJ".data⟩).seq.length =
      "ACGT".data.length + 2 + "TTAA".data.length ∧
    (mergedOf 2 ⟨"@r1".data, "ACGT".data, "+".data, "IIII".data⟩
        ⟨"@r2".data, "TTAA".data, "+".data, "JJJJ".data⟩).seq.length =
      (mergedOf 2 ⟨"@r1".data, "ACGT".data, "+".data, "IIII".data⟩
        ⟨"@r2".data, "TTAA".data, "+".data, "JJJJ".data⟩).qual.length) :=
  ⟨by decide, by decide,
    merged_record_lengths 2 _ _ (by decide) (by decide)⟩

/-- Claim C9: character-wise translation through the fixed table commutes
with reversal — complement-then-reverse equals reverse-then-complement, for
every input string. -/
theorem complement_reverse_commute (s : List Char) :
    (pyTranslate TRANS_TABLE s).reverse = pyTranslate TRANS_TABLE s.reverse := by
  simp [pyTranslate]

/-- Claim C10: every line the stitching loop uses is stripped of leading and
trailing whitespace before use: for arbitrary record fields — possibly
carrying surrounding whitespace such as a trailing carriage return — the
emitted record is built from the `pyStrip`-ped fields (identifier included),
not the verbatim line contents. -/
theorem loop_lines_stripped (pad : Nat) (r1 r2 : FastqRecord) (a b : List Line) :
    stitchLoop pad (toLines r1 ++ a) (toLines r2 ++ b) =
      { ident := pyStrip r1.ident
        seq := pyStrip r1.seq ++ List.replicate pad 'N' ++
          get_reverse_complement (pyStrip r2.seq)
        sep := ['+']
        qual := pyStrip r1.qual ++ List.replicate pad '!' ++ (pyStrip r2.qual).reverse }
      :: stitchLoop pad a b :=
  stitchLoop_cons pad r1 r2 a b

end Crispresso
